import Mathlib

set_option linter.unusedVariables false

/-!
# Verification of `freud/plot.py`

A shallow embedding of the matplotlib-based plotting helpers of the
`freud.plot` module.  Floating-point values are modelled by `ℚ`; values that
may be `inf`/`nan` (the PMFT field) by the type `FVal`.  A matplotlib
`Axes` object is modelled as a record of the drawing state that the module's
functions touch; drawing calls append `Elem` values or set record fields.
Python exceptions are modelled by `Except`, with the error value carrying the
axes state at the moment the exception is raised.
-/

namespace FreudPlot

/-- A floating-point cell value of a PMFT array: finite, `±inf`, or `nan`. -/
inductive FVal where
  | fin (q : ℚ)
  | inf
  | ninf
  | nan
deriving DecidableEq

/-- `np.isinf`: true exactly on the two infinities. -/
def FVal.isinf : FVal → Bool
  | .inf => true
  | .ninf => true
  | _ => false

/-- Tick values set on an axis: categorical labels or a list of integers. -/
inductive Ticks where
  | cat (labels : List String)
  | num (vals : List ℤ)
deriving DecidableEq

/-- A colorbar attached next to an axes via `make_axes_locatable`/`Colorbar`. -/
structure ColorbarSpec where
  label : Option String := none
  ticks : Option (List ℚ) := none
deriving DecidableEq

/-- A drawn element added to an axes by one of the plotting primitives. -/
inductive Elem where
  | line2 (xs ys : List ℚ) (color : Option String)
  | line3 (xs ys zs : List ℚ) (color : Option String)
  | scatter2 (xs ys : List ℚ)
  | scatter3 (xs ys zs : List ℚ)
  | bar (x : List String) (height : List ℚ)
  | hist (values : List ℚ)
  | image (data : List (List ℚ)) (extent : List ℚ) (interpolation : Option String)
      (cmap : Option String) (vmin vmax : Option ℚ) (lognorm : Option (ℚ × ℚ))
  | imageF (data : List (List FVal)) (extent : List ℚ) (interpolation : Option String)
      (cmap : Option String) (vmin vmax : Option ℚ)
  | patchColl (patches : List (List (ℚ × ℚ))) (edgecolors : String) (alpha : ℚ)
      (array : List ℚ) (cmapName : Option String) (lut : Option ℚ) (climLo climHi : ℚ)
deriving DecidableEq

/-- The state of a matplotlib `Axes` object, restricted to what `freud.plot`
reads or writes.  The `id` field stands for the object identity of the axes. -/
structure Axes where
  id : ℕ := 0
  proj3d : Bool := false
  elements : List Elem := []
  title : Option String := none
  xlabel : Option String := none
  ylabel : Option String := none
  zlabel : Option String := none
  xlim : Option (ℚ × ℚ) := none
  ylim : Option (ℚ × ℚ) := none
  xlim3d : Option (ℚ × ℚ) := none
  ylim3d : Option (ℚ × ℚ) := none
  zlim3d : Option (ℚ × ℚ) := none
  aspect : Option (String × String) := none
  xticks : Option Ticks := none
  yticks : Option Ticks := none
  xticklabels : Option (List String) := none
  legendLabels : Option (List String) := none
  xmajorLocator : Option (ℕ × Bool × ℕ) := none
  ymajorLocator : Option (ℕ × Bool × ℕ) := none
  xmajorFormatter : Option String := none
  ymajorFormatter : Option String := none
  colorbars : List ColorbarSpec := []
deriving DecidableEq

/-- The axes of a freshly created figure (`plt.figure()` followed by
`fig.subplots()` or `fig.add_subplot(111, projection="3d")`). -/
def Axes.fresh (p3 : Bool) : Axes := { proj3d := p3 }

/-- A Python exception: the module raises `RuntimeError` explicitly, and the
numpy reductions used raise `ValueError` on empty arrays. -/
inductive PyErr where
  | runtimeError (msg : String)
  | valueError (msg : String)
deriving DecidableEq

instance {ε α : Type} [DecidableEq ε] [DecidableEq α] : DecidableEq (Except ε α) := fun x y =>
  match x, y with
  | .ok a, .ok b => decidable_of_iff (a = b) (by simp)
  | .error a, .error b => decidable_of_iff (a = b) (by simp)
  | .ok _, .error _ => isFalse (by simp)
  | .error _, .ok _ => isFalse (by simp)

/-- Modelled from the spec: a simulation box, "box edge lengths and
periodicity flag" plus the usual triclinic tilt factors; `freud.box` is not
part of the sources under verification. -/
structure Box where
  Lx : ℚ
  Ly : ℚ
  Lz : ℚ
  xy : ℚ := 0
  xz : ℚ := 0
  yz : ℚ := 0
  is2D : Bool
deriving DecidableEq

/-- Modelled from the spec: `freud.box.Box.from_box` normalizes its argument
to a `Box`; on a `Box` it is the identity. -/
def Box.from_box (b : Box) : Box := b

/-- Modelled from the spec: `Box.make_absolute` maps fractional coordinates
in the unit cube to absolute coordinates of the (origin-centered) box spanned
by the lattice vectors `(Lx,0,0)`, `(xy*Ly, Ly, 0)`, `(xz*Lz, yz*Lz, Lz)`. -/
def Box.make_absolute (b : Box) (f : ℚ × ℚ × ℚ) : ℚ × ℚ × ℚ :=
  (f.1 * b.Lx + f.2.1 * (b.xy * b.Ly) + f.2.2 * (b.xz * b.Lz)
      - (b.Lx + b.xy * b.Ly + b.xz * b.Lz) / 2,
    f.2.1 * b.Ly + f.2.2 * (b.yz * b.Lz) - (b.Ly + b.yz * b.Lz) / 2,
    f.2.2 * b.Lz - b.Lz / 2)

/-- Modelled from the spec: the result of
`freud.locality.NeighborQuery.from_system`, exposing a box and the point
coordinate array; `freud.locality` is not part of the sources under
verification. -/
structure NeighborQuery where
  box : Box
  points : List (ℚ × ℚ × ℚ)
deriving DecidableEq

/-- Modelled from the spec: on an already-built system object,
`NeighborQuery.from_system` is the identity. -/
def NeighborQuery.from_system (s : NeighborQuery) : NeighborQuery := s

/-- `np.min` on a possibly empty array: raises `ValueError` on empty input. -/
def listMin (l : List ℚ) : Except String ℚ :=
  match l with
  | [] => .error "zero-size array to reduction operation minimum which has no identity"
  | x :: xs => .ok (xs.foldl min x)

/-- `np.max` on a possibly empty array: raises `ValueError` on empty input. -/
def listMax (l : List ℚ) : Except String ℚ :=
  match l with
  | [] => .error "zero-size array to reduction operation maximum which has no identity"
  | x :: xs => .ok (xs.foldl max x)

/-- `np.min` on an array known to be nonempty at the call site. -/
def minD (l : List ℚ) : ℚ :=
  match l with
  | [] => 0
  | x :: xs => xs.foldl min x

/-- `np.max` on an array known to be nonempty at the call site. -/
def maxD (l : List ℚ) : ℚ :=
  match l with
  | [] => 0
  | x :: xs => xs.foldl max x

/-- Floor of a rational, computed by Euclidean division (the denominator is
positive). -/
def floorQ (q : ℚ) : ℤ := Int.ediv q.num (q.den : ℤ)

/-- Ceiling of a rational. -/
def ceilQ (q : ℚ) : ℤ := -(floorQ (-q))

/-- Python `int(...)` on a float: truncation toward zero. -/
def truncQ (q : ℚ) : ℤ := if 0 ≤ q.num then floorQ q else ceilQ q

/-- Python `range(a, b)` over integers, as a list. -/
def intRange (a b : ℤ) : List ℤ := (List.range (b - a).toNat).map (fun i => a + i)

/-- `np.arange(a, b)` with unit step. -/
def arangeQ (a b : ℚ) : List ℚ :=
  (List.range (ceilQ (b - a)).toNat).map (fun k => a + (k : ℚ))

/-- `np.clip(x, lo, hi)` on a scalar. -/
def np_clip (x lo hi : ℚ) : ℚ := min (max x lo) hi

/-- `np.clip(arr, lo, hi)` on a 2D array. -/
def np_clip_grid (arr : List (List ℚ)) (lo hi : ℚ) : List (List ℚ) :=
  arr.map (fun row => row.map (fun x => np_clip x lo hi))

/-- The column slice `arr[:, 0]` of an `(N, 3)` coordinate array. -/
def xsOf (l : List (ℚ × ℚ × ℚ)) : List ℚ := l.map (fun c => c.1)

/-- The column slice `arr[:, 1]` of an `(N, 3)` coordinate array. -/
def ysOf (l : List (ℚ × ℚ × ℚ)) : List ℚ := l.map (fun c => c.2.1)

/-- The column slice `arr[:, 2]` of an `(N, 3)` coordinate array. -/
def zsOf (l : List (ℚ × ℚ × ℚ)) : List ℚ := l.map (fun c => c.2.2)

/-! ## `_set_3d_axes_equal` -/

/-- Axis limits `[[xmin, xmax], [ymin, ymax], [zmin, zmax]]`. -/
abbrev Limits3 := (ℚ × ℚ) × (ℚ × ℚ) × (ℚ × ℚ)

/-- Embedding of `_set_3d_axes_equal`: center each 3D axis on the midpoint of
its given interval and give all three the same half-width `radius`, the
maximum input half-width. -/
def set_3d_axes_equal (ax : Axes) (limits? : Option Limits3) : Axes :=
  let limits := match limits? with
    | none => (ax.xlim3d.getD (0, 1), ax.ylim3d.getD (0, 1), ax.zlim3d.getD (0, 1))
    | some l => l
  let ox := (limits.1.1 + limits.1.2) / 2
  let oy := (limits.2.1.1 + limits.2.1.2) / 2
  let oz := (limits.2.2.1 + limits.2.2.2) / 2
  let radius := (1 / 2 : ℚ) * max (limits.1.2 - limits.1.1)
      (max (limits.2.1.2 - limits.2.1.1) (limits.2.2.2 - limits.2.2.1))
  { ax with
    xlim3d := some (ox - radius, ox + radius),
    ylim3d := some (oy - radius, oy + radius),
    zlim3d := some (oz - radius, oz + radius) }

/-! ## `box_plot` -/

/-- Embedding of `box_plot`.  `image?` is the periodic image location,
`color?` the only `**kwargs` entry the function itself reads.  In the 3D
branch the source pops `"color"` from `kwargs` inside the loop, so only the
first path uses the caller's color and the rest fall back to `"k"`. -/
def box_plot (box : Box) (title? : Option String) (ax? : Option Axes)
    (image? : Option (ℤ × ℤ × ℤ)) (color? : Option String) : Axes :=
  let image := image?.getD (0, 0, 0)
  let box := Box.from_box box
  let ax := match ax? with
    | some a => a
    | none => Axes.fresh (!box.is2D)
  if box.is2D then
    let cornersFrac : List (ℚ × ℚ × ℚ) :=
      [(0, 0, 0), (0, 1, 0), (1, 1, 0), (1, 0, 0), (0, 0, 0)]
    let corners : List (ℚ × ℚ × ℚ) := cornersFrac.map (fun c =>
      box.make_absolute (c.1 + (image.1 : ℚ), c.2.1 + (image.2.1 : ℚ), c.2.2 + (image.2.2 : ℚ)))
    let color := color?.getD "k"
    let ax := { ax with elements := ax.elements ++
      [Elem.line2 (xsOf corners) (ysOf corners) (some color)] }
    let ax := { ax with aspect := some ("equal", "datalim") }
    { ax with xlabel := some "$x$", ylabel := some "$y$" }
  else
    let cornersFrac : List (ℚ × ℚ × ℚ) :=
      [(0, 0, 0), (0, 0, 1), (0, 1, 0), (0, 1, 1), (1, 0, 0), (1, 0, 1), (1, 1, 0), (1, 1, 1)]
    let corners : List (ℚ × ℚ × ℚ) := cornersFrac.map (fun c =>
      box.make_absolute (c.1 + (image.1 : ℚ), c.2.1 + (image.2.1 : ℚ), c.2.2 + (image.2.2 : ℚ)))
    let pathsIdx : List (List ℕ) := [[0, 1, 3, 2, 0], [4, 5, 7, 6, 4], [0, 4], [1, 5], [2, 6], [3, 7]]
    let paths := pathsIdx.map (fun idxs => idxs.map (fun i => corners.getD i (0, 0, 0)))
    let drawn := paths.foldl (fun (st : Axes × Option String) (path : List (ℚ × ℚ × ℚ)) =>
      let color := st.2.getD "k"
      ({ st.1 with elements := st.1.elements ++
        [Elem.line3 (xsOf path) (ysOf path) (zsOf path) (some color)] }, (none : Option String)))
      (ax, color?)
    let ax := drawn.1
    let ax := { ax with xlabel := some "$x$", ylabel := some "$y$", zlabel := some "$z$" }
    let limits : Limits3 :=
      (((corners.getD 0 (0, 0, 0)).1, (corners.getD 7 (0, 0, 0)).1),
        ((corners.getD 0 (0, 0, 0)).2.1, (corners.getD 7 (0, 0, 0)).2.1),
        ((corners.getD 0 (0, 0, 0)).2.2, (corners.getD 7 (0, 0, 0)).2.2))
    set_3d_axes_equal ax (some limits)

/-! ## `system_plot` -/

/-- Embedding of `system_plot`.  Returns the axes together with the scatter
handle `sc`.  In the 3D branch the `np.min`/`np.max` reductions over the
points raise `ValueError` when the point array is empty; the error value
carries the axes state at the raise. -/
def system_plot (system : NeighborQuery) (title? : Option String) (ax? : Option Axes) :
    Except (PyErr × Axes) (Axes × Elem) :=
  let system := NeighborQuery.from_system system
  let ax := match ax? with
    | some a => a
    | none => Axes.fresh (!system.box.is2D)
  if system.box.is2D then
    let ax := box_plot system.box none (some ax) none none
    let sc := Elem.scatter2 (xsOf system.points) (ysOf system.points)
    let ax := { ax with elements := ax.elements ++ [sc] }
    let ax := { ax with aspect := some ("equal", "datalim") }
    .ok (ax, sc)
  else
    let ax := box_plot system.box none (some ax) none none
    let sc := Elem.scatter3 (xsOf system.points) (ysOf system.points) (zsOf system.points)
    let ax := { ax with elements := ax.elements ++ [sc] }
    let boxMin := system.box.make_absolute (0, 0, 0)
    let boxMax := system.box.make_absolute (1, 1, 1)
    match listMin (xsOf system.points), listMax (xsOf system.points),
        listMin (ysOf system.points), listMax (ysOf system.points),
        listMin (zsOf system.points), listMax (zsOf system.points) with
    | .ok pxm, .ok pxM, .ok pym, .ok pyM, .ok pzm, .ok pzM =>
      let limits : Limits3 :=
        ((min boxMin.1 pxm, max boxMax.1 pxM),
          (min boxMin.2.1 pym, max boxMax.2.1 pyM),
          (min boxMin.2.2 pzm, max boxMax.2.2 pzM))
      .ok (set_3d_axes_equal ax (some limits), sc)
    | _, _, _, _, _, _ =>
      .error (.valueError "zero-size array to reduction operation", ax)

/-! ## `bar_plot`, `clusters_plot` -/

/-- Embedding of `bar_plot`: draw the bars, set title and axis labels, and
use the `x` values as tick positions and tick labels. -/
def bar_plot (x : List String) (height : List ℚ)
    (title? xlabel? ylabel? : Option String) (ax? : Option Axes) : Axes :=
  let ax := match ax? with
    | some a => a
    | none => Axes.fresh false
  let ax := { ax with elements := ax.elements ++ [Elem.bar x height] }
  let ax := { ax with title := title?, xlabel := xlabel?, ylabel := ylabel? }
  { ax with xticks := some (.cat x), xticklabels := some x }

/-- The sort order of `sorted(..., key=lambda x: -x[0])` on `(freq, key)`
pairs: non-increasing frequency. -/
def freqGE (a b : ℕ × ℤ) : Prop := b.1 ≤ a.1

instance : DecidableRel freqGE := fun a b => Nat.decLe b.1 a.1

instance : IsTotal (ℕ × ℤ) freqGE := ⟨fun a b => le_total b.1 a.1⟩

instance : IsTrans (ℕ × ℤ) freqGE := ⟨fun _ _ _ h1 h2 => le_trans h2 h1⟩

/-- Embedding of `clusters_plot`: stable-sort the `(freq, key)` pairs by
decreasing frequency, keep the first `num_clusters_to_plot`, and draw them
with `bar_plot` (keys as string labels). -/
def clusters_plot (keys : List ℤ) (freqs : List ℕ) (numClustersToPlot : ℕ)
    (ax? : Option Axes) : Axes :=
  let countSorted := List.insertionSort freqGE (freqs.zip keys)
  let sortedFreqs := (countSorted.take numClustersToPlot).map (fun p => (p.1 : ℚ))
  let sortedKeys := (countSorted.take numClustersToPlot).map (fun p => toString p.2)
  bar_plot sortedKeys sortedFreqs (some "Cluster Frequency")
    (some ("Keys of " ++ toString sortedFreqs.length ++ " largest clusters (total clusters: "
      ++ toString freqs.length ++ ")"))
    (some "Number of particles") ax?

/-! ## `line_plot`, `histogram_plot` -/

/-- Embedding of `line_plot`. -/
def line_plot (x y : List ℚ) (title? xlabel? ylabel? : Option String)
    (ax? : Option Axes) : Axes :=
  let ax := match ax? with
    | some a => a
    | none => Axes.fresh false
  let ax := { ax with elements := ax.elements ++ [Elem.line2 x y none] }
  { ax with title := title?, xlabel := xlabel?, ylabel := ylabel? }

/-- Embedding of `histogram_plot`. -/
def histogram_plot (values : List ℚ) (title? xlabel? ylabel? : Option String)
    (ax? : Option Axes) (legendLabels? : Option (List String)) : Axes :=
  let ax := match ax? with
    | some a => a
    | none => Axes.fresh false
  let ax := { ax with elements := ax.elements ++ [Elem.hist values] }
  let ax := { ax with title := title?, xlabel := xlabel?, ylabel := ylabel? }
  match legendLabels? with
  | some ls => { ax with legendLabels := some ls }
  | none => ax

/-! ## `pmft_plot`

The frame condition of `pmft_plot` (claim C6) is about object mutation, so
the PMFT array lives in an explicit heap of grids and `np.copy` allocates a
fresh cell; the masked assignment `pmft_arr[np.isinf(pmft_arr)] = np.nan`
writes to that fresh cell only. -/

/-- A 2D float array (PMFT field), with `inf`/`nan` entries possible. -/
abbrev Grid := List (List FVal)

/-- The array heap: each cell is one numpy array object. -/
abbrev Heap := List Grid

/-- `np.copy`: allocate a fresh heap cell holding the same contents; returns
the new heap and the reference to the copy. -/
def np_copy (h : Heap) (ref : ℕ) : Heap × ℕ := (h ++ [h.getD ref []], h.length)

/-- The masked assignment `arr[np.isinf(arr)] = np.nan`. -/
def maskInfToNan (g : Grid) : Grid :=
  g.map (fun row => row.map (fun v => if v.isinf then FVal.nan else v))

/-- A `freud.pmft.PMFTXY2D` instance as read by `pmft_plot`: a reference to
its `pmft` array on the heap, and its `bounds = (xlims, ylims)`. -/
structure PMFT where
  pmftRef : ℕ
  bounds : (ℚ × ℚ) × (ℚ × ℚ)
deriving DecidableEq

/-- Embedding of `pmft_plot`.  Returns the axes and the final heap. -/
def pmft_plot (h : Heap) (pmft : PMFT) (ax? : Option Axes) (cmap : String) :
    Axes × Heap :=
  let ax := match ax? with
    | some a => a
    | none => Axes.fresh false
  let copied := np_copy h pmft.pmftRef
  let h := copied.1
  let copyRef := copied.2
  let h := h.set copyRef (maskInfToNan (h.getD copyRef []))
  let xlims := pmft.bounds.1
  let ylims := pmft.bounds.2
  let ax := { ax with xlim := some xlims, ylim := some ylims }
  let ax := { ax with
    xticks := some (.num (intRange (truncQ xlims.1) (truncQ (xlims.2 + 1)))),
    yticks := some (.num (intRange (truncQ ylims.1) (truncQ (ylims.2 + 1)))) }
  let ax := { ax with xlabel := some "$x$", ylabel := some "$y$", title := some "PMFT" }
  let pmftArr := h.getD copyRef []
  let ax := { ax with elements := ax.elements ++
    [Elem.imageF pmftArr.reverse [xlims.1, xlims.2, ylims.1, ylims.2]
      (some "nearest") (some cmap) (some (-(5 / 2))) (some 3)] }
  let ax := { ax with colorbars := ax.colorbars ++ [{ label := some "$k_B T$" }] }
  (ax, h)

/-! ## `density_plot` -/

/-- Embedding of `density_plot`: show `np.flipud(density.T)` over the box
extent and attach a colorbar. -/
def density_plot (density : List (List ℚ)) (box : Box) (ax? : Option Axes) : Axes :=
  let ax := match ax? with
    | some a => a
    | none => Axes.fresh false
  let xlims := (-box.Lx / 2, box.Lx / 2)
  let ylims := (-box.Ly / 2, box.Ly / 2)
  let ax := { ax with
    title := some "Gaussian Density", xlabel := some "$x$", ylabel := some "$y$" }
  let ax := { ax with elements := ax.elements ++
    [Elem.image density.transpose.reverse [xlims.1, xlims.2, ylims.1, ylims.2]
      none none none none none] }
  { ax with colorbars := ax.colorbars ++ [{ label := some "Density" }] }

/-! ## `voronoi_plot` -/

/-- `Polygon(poly[:, :2])` for each polytope: keep the 2D vertex columns. -/
def patchesOf (polytopes : List (List (ℚ × ℚ × ℚ))) : List (List (ℚ × ℚ)) :=
  polytopes.map (fun poly => poly.map (fun v => (v.1, v.2.1)))

/-- Python string formatting of `color_by` in the error message: a string
formats as itself, `None` as `"None"`. -/
def pyFormat (o : Option String) : String :=
  match o with
  | some s => s
  | none => "None"

/-- The `'sides'` color array: `[len(poly) for poly in voronoi.polytopes]`. -/
def voronoi_sides_colors (polytopes : List (List (ℚ × ℚ × ℚ))) : List ℚ :=
  polytopes.map (fun poly => ((poly.length : ℤ) : ℚ))

/-- The `color_by` dispatch of `voronoi_plot` (the `if`/`elif`/`else` chain):
the color array and the number of colors (`None` for the continuous `'area'`
mode).  An unrecognized option raises `RuntimeError` naming the invalid
value; `np.ptp` on an empty array raises `ValueError`.  With `color_by=None`
the colors are the ambient random permutation `rngPerm` drawn from an
unseeded `np.random.RandomState()`. -/
def voronoi_colors (polytopes : List (List (ℚ × ℚ × ℚ))) (volumes : List ℚ)
    (rngPerm : List ℕ) (colorBy : Option String) :
    Except PyErr (List ℚ × Option ℚ) :=
  if colorBy = some "sides" then
    match listMax (voronoi_sides_colors polytopes), listMin (voronoi_sides_colors polytopes) with
    | .ok mx, .ok mn => .ok (voronoi_sides_colors polytopes, some (mx - mn + 1))
    | .error e, _ => .error (.valueError e)
    | _, .error e => .error (.valueError e)
  else if colorBy = some "area" then .ok (volumes, none)
  else if colorBy = none then
    .ok (rngPerm.map (fun n => (n : ℚ)), some ((rngPerm.dedup.length : ℚ)))
  else .error (.runtimeError ("Invalid color_by option " ++ pyFormat colorBy ++ "."))

/-- The colormap defaulting logic of `voronoi_plot`. -/
def voronoi_cmap (cmap? : Option String) (colorBy : Option String)
    (numColors : Option ℚ) : Option String :=
  if cmap? = none ∧ colorBy ≠ some "area" then
    if colorBy ≠ none ∧ numColors.getD 0 ≤ 10 then some "tab10" else some "tab20"
  else cmap?

/-- The labels of the voronoi colorbar, per coloring mode. -/
def voronoiColorByLabels : List (String × String) :=
  [("sides", "Number of sides"), ("area", "Polytope Area")]

/-- The drawing part of `voronoi_plot`, after validation succeeded: add the
patch collection, draw the box outline, set title/limits/aspect and, for a
non-`None` coloring mode, attach the colorbar. -/
def voronoi_draw (ax : Axes) (patches : List (List (ℚ × ℚ))) (colors : List ℚ)
    (numColors : Option ℚ) (cmapName : Option String) (mn mx : ℚ) (box : Box)
    (colorBy : Option String) : Axes :=
  let bounds := arangeQ mn (mx + 1)
  let ax := { ax with elements := ax.elements ++
    [Elem.patchColl patches "black" (2 / 5) (colors.map (fun c => c - 1 / 2)) cmapName
      numColors (bounds.headD 0 - 1 / 2) (bounds.getLastD 0 + 1 / 2)] }
  let cornersFrac : List (ℚ × ℚ × ℚ) :=
    [(0, 0, 0), (0, 1, 0), (1, 1, 0), (1, 0, 0), (0, 0, 0)]
  let corners : List (ℚ × ℚ × ℚ) := cornersFrac.map box.make_absolute
  let ax := { ax with elements := ax.elements ++
    [Elem.line2 (xsOf corners) (ysOf corners) (some "k")] }
  let ax := { ax with title := some "Voronoi Diagram" }
  let ax := { ax with
    xlim := some (minD (xsOf corners), maxD (xsOf corners)),
    ylim := some (minD (ysOf corners), maxD (ysOf corners)) }
  let ax := { ax with aspect := some ("equal", "datalim") }
  match colorBy with
  | some cb =>
    { ax with colorbars := ax.colorbars ++
      [{ label := voronoiColorByLabels.lookup cb, ticks := some bounds }] }
  | none => ax

/-- Embedding of `voronoi_plot`.  `rngPerm` is the permutation produced by
the unseeded `np.random.RandomState()` in the `color_by=None` branch: it is
ambient nondeterministic state, not a caller input.  The error value carries
the axes state at the moment the exception is raised. -/
def voronoi_plot (polytopes : List (List (ℚ × ℚ × ℚ))) (volumes : List ℚ) (box : Box)
    (ax? : Option Axes) (colorBy : Option String) (cmap? : Option String)
    (rngPerm : List ℕ) : Except (PyErr × Axes) Axes :=
  let ax := match ax? with
    | some a => a
    | none => Axes.fresh false
  let patches := patchesOf polytopes
  match voronoi_colors polytopes volumes rngPerm colorBy with
  | .error e => .error (e, ax)
  | .ok (colors, numColors) =>
    let cmapName := voronoi_cmap cmap? colorBy numColors
    match listMin colors, listMax colors with
    | .ok mn, .ok mx =>
      .ok (voronoi_draw ax patches colors numColors cmapName mn mx box colorBy)
    | .error e, _ => .error (.valueError e, ax)
    | _, .error e => .error (.valueError e, ax)

/-! ## `diffraction_plot` -/

/-- Embedding of `diffraction_plot`: clip the diffraction data to
`[vmin, vmax]`, draw it with a logarithmic color normalization between
`vmin` and `vmax` (defaults `4e-6 * N_points` and `0.7 * N_points`), attach
a colorbar and set locators, formatters, title, labels and aspect. -/
def diffraction_plot (diffraction : List (List ℚ)) (kValues : List ℚ) (nPoints : ℕ)
    (ax? : Option Axes) (cmap : String) (vmin? vmax? : Option ℚ) :
    Except (PyErr × Axes) Axes :=
  let vmin := vmin?.getD ((4 / 1000000 : ℚ) * (nPoints : ℚ))
  let vmax := vmax?.getD ((7 / 10 : ℚ) * (nPoints : ℚ))
  let ax := match ax? with
    | some a => a
    | none => Axes.fresh false
  match listMin kValues, listMax kValues with
  | .ok kmn, .ok kmx =>
    let ax := { ax with elements := ax.elements ++
      [Elem.image (np_clip_grid diffraction vmin vmax)
        [kmn, kmx, kmn, kmx] (some "nearest") (some cmap) none none (some (vmin, vmax))] }
    let ax := { ax with colorbars := ax.colorbars ++
      [({ label := some "$S(\\vec\x7bk\x7d)$" } : ColorbarSpec)] }
    let ax := { ax with xmajorLocator := some (6, true, 7), ymajorLocator := some (6, true, 7) }
    let ax := { ax with xmajorFormatter := some "%.3g", ymajorFormatter := some "%.3g" }
    .ok { ax with
      title := some "Diffraction Pattern", aspect := some ("equal", "datalim"),
      xlabel := some "$k_x$", ylabel := some "$k_y$" }
  | .error e, _ => .error (.valueError e, ax)
  | _, .error e => .error (.valueError e, ax)

/-! ## `_ax_to_bytes`

The raster-export helper is modelled with an explicit effect trace so that
"no file or network output" is a provable statement: writing bytes to a sink
is an `Effect`, and the in-memory `io.BytesIO` buffer is one kind of sink. -/

/-- A destination bytes can be written to. -/
inductive Sink where
  | memBuffer (bufId : ℕ)
  | file (path : String)
deriving DecidableEq

/-- An observable output effect: a write to a sink, or a network send. -/
inductive Effect where
  | write (sink : Sink) (data : List ℕ)
  | netSend (host : String) (data : List ℕ)
deriving DecidableEq

/-- True exactly on the effects that leave the process memory. -/
def effLeavesMemory : Effect → Bool
  | .write (.file _) _ => true
  | .netSend _ _ => true
  | _ => false

/-- A matplotlib figure, as far as `_ax_to_bytes` is concerned: the axes it
holds (cleared by `fig.clf()`) and whether an Agg canvas has been set. -/
structure Fig where
  axes : List Axes := []
  canvasAgg : Bool := false
deriving DecidableEq

/-- All bytes accumulated in a sink by a trace of effects (`f.getvalue()`). -/
def bytesWrittenTo (s : Sink) (effs : List Effect) : List ℕ :=
  effs.foldl (fun acc e =>
    match e with
    | .write s' d => if s' = s then acc ++ d else acc
    | _ => acc) []

/-- Embedding of `_ax_to_bytes`.  `png` is the opaque renderer of the
plotting library (modelled from the spec: `savefig(..., format="png")`
produces the PNG encoding of the figure).  The argument `figure` is
`ax.figure`, the figure of the axes being exported.  Returns the bytes
handed back to the caller, the final figure state, and the effect trace. -/
def ax_to_bytes (png : Fig → List ℕ) (figure : Fig) : List ℕ × Fig × List Effect :=
  let fsink : Sink := .memBuffer 0
  let fig := { figure with canvasAgg := true }
  let effs : List Effect := [.write fsink (png fig)]
  let fig := { fig with axes := [] }
  (bytesWrittenTo fsink effs, fig, effs)

/-! ## Helper notions used by the theorems -/

/-- The object identity of the axes a helper draws on: the caller's axes when
one is supplied, otherwise the fresh axes (whose `id` is `0`). -/
def axIdOf (ax? : Option Axes) : ℕ :=
  match ax? with
  | some a => a.id
  | none => 0

/-- The three 3D axis limits of an axes, as one tuple. -/
def lims3 (a : Axes) : Option (ℚ × ℚ) × Option (ℚ × ℚ) × Option (ℚ × ℚ) :=
  (a.xlim3d, a.ylim3d, a.zlim3d)

/-- Concrete inputs used by the closed witness and counterexample theorems. -/
def polysW : List (List (ℚ × ℚ × ℚ)) :=
  [[(0, 0, 0), (1, 0, 0), (0, 1, 0)], [(0, 0, 0), (2, 0, 0), (2, 2, 0), (0, 2, 0)]]

/-- A concrete 2D box for witnesses. -/
def boxW : Box := { Lx := 2, Ly := 2, Lz := 0, is2D := true }

/-- A concrete 3D box for witnesses. -/
def boxW3 : Box := { Lx := 2, Ly := 4, Lz := 6, is2D := false }

/-- A concrete caller-supplied axes (nonzero `id`) for witnesses. -/
def axW : Axes := { id := 7 }

/-! ## Structure lemmas for `voronoi_plot` -/

theorem voronoi_colors_invalid (p : List (List (ℚ × ℚ × ℚ))) (v : List ℚ)
    (perm : List ℕ) (s : String) (h1 : s ≠ "sides") (h2 : s ≠ "area") :
    voronoi_colors p v perm (some s) =
      .error (.runtimeError ("Invalid color_by option " ++ s ++ ".")) := by
  unfold voronoi_colors
  rw [if_neg (by simp [h1]), if_neg (by simp [h2]), if_neg (by simp)]
  rfl

theorem voronoi_colors_valid_no_rte (p : List (List (ℚ × ℚ × ℚ))) (v : List ℚ)
    (perm : List ℕ) (cb : Option String)
    (hcb : cb = some "sides" ∨ cb = some "area" ∨ cb = none) (err : PyErr)
    (h : voronoi_colors p v perm cb = .error err) : ∃ m, err = .valueError m := by
  rcases hcb with rfl | rfl | rfl
  · unfold voronoi_colors at h
    rw [if_pos rfl] at h
    split at h
    · cases h
    · cases h; exact ⟨_, rfl⟩
    · cases h; exact ⟨_, rfl⟩
  · unfold voronoi_colors at h
    rw [if_neg (by simp), if_pos rfl] at h
    cases h
  · unfold voronoi_colors at h
    rw [if_neg (by simp), if_neg (by simp), if_pos rfl] at h
    cases h

theorem voronoi_plot_shape (p : List (List (ℚ × ℚ × ℚ))) (v : List ℚ) (b : Box)
    (ax? : Option Axes) (cb cm? : Option String) (perm : List ℕ) :
    (∃ err, voronoi_colors p v perm cb = .error err ∧
      voronoi_plot p v b ax? cb cm? perm = .error (err, ax?.getD (Axes.fresh false))) ∨
    (∃ colors numColors, voronoi_colors p v perm cb = .ok (colors, numColors) ∧
      ((∃ em, listMin colors = .error em ∧
        voronoi_plot p v b ax? cb cm? perm =
          .error (.valueError em, ax?.getD (Axes.fresh false))) ∨
      (∃ mn eM, listMin colors = .ok mn ∧ listMax colors = .error eM ∧
        voronoi_plot p v b ax? cb cm? perm =
          .error (.valueError eM, ax?.getD (Axes.fresh false))) ∨
      (∃ mn mx, listMin colors = .ok mn ∧ listMax colors = .ok mx ∧
        voronoi_plot p v b ax? cb cm? perm =
          .ok (voronoi_draw (ax?.getD (Axes.fresh false)) (patchesOf p) colors numColors
            (voronoi_cmap cm? cb numColors) mn mx b cb)))) := by
  cases hc : voronoi_colors p v perm cb with
  | error err =>
    left
    refine ⟨err, rfl, ?_⟩
    simp only [voronoi_plot]
    rw [hc]
    cases ax? <;> rfl
  | ok pair =>
    obtain ⟨colors, numColors⟩ := pair
    right
    refine ⟨colors, numColors, rfl, ?_⟩
    cases hmn : listMin colors with
    | error em =>
      left
      refine ⟨em, rfl, ?_⟩
      simp only [voronoi_plot]
      rw [hc]
      dsimp only
      rw [hmn]
      cases hmx : listMax colors <;> cases ax? <;> rfl
    | ok mn =>
      cases hmx : listMax colors with
      | error eM =>
        right; left
        refine ⟨mn, eM, rfl, rfl, ?_⟩
        simp only [voronoi_plot]
        rw [hc]
        dsimp only
        rw [hmn, hmx]
        cases ax? <;> rfl
      | ok mx =>
        right; right
        refine ⟨mn, mx, rfl, rfl, ?_⟩
        simp only [voronoi_plot]
        rw [hc]
        dsimp only
        rw [hmn, hmx]
        cases ax? <;> rfl

theorem voronoi_draw_id (ax : Axes) (patches : List (List (ℚ × ℚ))) (colors : List ℚ)
    (numColors : Option ℚ) (cmapName : Option String) (mn mx : ℚ) (b : Box)
    (cb : Option String) :
    (voronoi_draw ax patches colors numColors cmapName mn mx b cb).id = ax.id := by
  cases cb <;> rfl

theorem voronoi_draw_lims3 (ax : Axes) (patches : List (List (ℚ × ℚ))) (colors : List ℚ)
    (numColors : Option ℚ) (cmapName : Option String) (mn mx : ℚ) (b : Box)
    (cb : Option String) :
    lims3 (voronoi_draw ax patches colors numColors cmapName mn mx b cb) = lims3 ax := by
  cases cb <;> rfl

/-! ## Identity, limits and success lemmas for the individual helpers -/

theorem box_plot_id (box : Box) (t : Option String) (ax? : Option Axes)
    (im : Option (ℤ × ℤ × ℤ)) (col : Option String) :
    (box_plot box t ax? im col).id = axIdOf ax? := by
  cases ax? <;> cases hb : box.is2D <;>
    simp [box_plot, hb, axIdOf, Axes.fresh, set_3d_axes_equal, Box.from_box]

theorem box_plot_none (box : Box) (t : Option String) (im : Option (ℤ × ℤ × ℤ))
    (col : Option String) :
    box_plot box t none im col = box_plot box t (some (Axes.fresh (!box.is2D))) im col := rfl

theorem box_plot_lims3_2d (box : Box) (t : Option String) (ax? : Option Axes)
    (im : Option (ℤ × ℤ × ℤ)) (col : Option String) (hb : box.is2D = true) :
    lims3 (box_plot box t ax? im col) = lims3 (ax?.getD (Axes.fresh (!box.is2D))) := by
  cases ax? <;> simp [box_plot, hb, lims3, Axes.fresh, Box.from_box]

theorem box_plot_3d_equalized (box : Box) (t : Option String) (ax? : Option Axes)
    (im : Option (ℤ × ℤ × ℤ)) (col : Option String) (hb : box.is2D = false) :
    ∃ a1 L1, box_plot box t ax? im col = set_3d_axes_equal a1 (some L1) := by
  cases ax? <;> simp only [box_plot, hb, Box.from_box, Bool.false_eq_true, if_false] <;>
    exact ⟨_, _, rfl⟩

theorem system_plot_none (sys : NeighborQuery) (t : Option String) :
    system_plot sys t none = system_plot sys t (some (Axes.fresh (!sys.box.is2D))) := rfl

theorem system_plot_ok_id (sys : NeighborQuery) (t : Option String) (ax? : Option Axes) :
    ∀ r, system_plot sys t ax? = .ok r → r.1.id = axIdOf ax? := by
  intro r h
  obtain ⟨⟨Lx, Ly, Lz, xy, xz, yz, is2D⟩, pts⟩ := sys
  cases is2D <;> cases pts <;> cases ax? <;>
    first | exact Except.noConfusion h | (cases h; rfl)

theorem system_plot_ok_of (sys : NeighborQuery) (t : Option String) (ax? : Option Axes)
    (hs : sys.box.is2D = true ∨ sys.points ≠ []) :
    ∃ r, system_plot sys t ax? = .ok r ∧ r.1.id = axIdOf ax? := by
  obtain ⟨⟨Lx, Ly, Lz, xy, xz, yz, is2D⟩, pts⟩ := sys
  cases is2D <;> cases pts <;> cases ax? <;>
    first
    | exact ⟨_, rfl, rfl⟩
    | (exfalso; rcases hs with h | h <;> simp_all)

theorem system_plot_3d_ok_equalized (sys : NeighborQuery) (t : Option String)
    (ax? : Option Axes) (hb : sys.box.is2D = false) :
    ∀ r, system_plot sys t ax? = .ok r → ∃ a1 L1, r.1 = set_3d_axes_equal a1 (some L1) := by
  intro r h
  obtain ⟨⟨Lx, Ly, Lz, xy, xz, yz, is2D⟩, pts⟩ := sys
  cases is2D <;> cases pts <;> cases ax? <;>
    first
    | exact Except.noConfusion h
    | (cases h; exact ⟨_, _, rfl⟩)
    | simp_all

theorem bar_plot_id (x : List String) (hgt : List ℚ) (t xl yl : Option String)
    (ax? : Option Axes) : (bar_plot x hgt t xl yl ax?).id = axIdOf ax? := by
  cases ax? <;> rfl

theorem bar_plot_none (x : List String) (hgt : List ℚ) (t xl yl : Option String) :
    bar_plot x hgt t xl yl none = bar_plot x hgt t xl yl (some (Axes.fresh false)) := rfl

theorem bar_plot_lims3 (x : List String) (hgt : List ℚ) (t xl yl : Option String)
    (ax? : Option Axes) :
    lims3 (bar_plot x hgt t xl yl ax?) = lims3 (ax?.getD (Axes.fresh false)) := by
  cases ax? <;> rfl

theorem clusters_plot_id (keys : List ℤ) (freqs : List ℕ) (n : ℕ) (ax? : Option Axes) :
    (clusters_plot keys freqs n ax?).id = axIdOf ax? := by
  cases ax? <;> rfl

theorem clusters_plot_none (keys : List ℤ) (freqs : List ℕ) (n : ℕ) :
    clusters_plot keys freqs n none = clusters_plot keys freqs n (some (Axes.fresh false)) := rfl

theorem clusters_plot_lims3 (keys : List ℤ) (freqs : List ℕ) (n : ℕ) (ax? : Option Axes) :
    lims3 (clusters_plot keys freqs n ax?) = lims3 (ax?.getD (Axes.fresh false)) := by
  cases ax? <;> rfl

theorem line_plot_id (x y : List ℚ) (t xl yl : Option String) (ax? : Option Axes) :
    (line_plot x y t xl yl ax?).id = axIdOf ax? := by
  cases ax? <;> rfl

theorem line_plot_none (x y : List ℚ) (t xl yl : Option String) :
    line_plot x y t xl yl none = line_plot x y t xl yl (some (Axes.fresh false)) := rfl

theorem line_plot_lims3 (x y : List ℚ) (t xl yl : Option String) (ax? : Option Axes) :
    lims3 (line_plot x y t xl yl ax?) = lims3 (ax?.getD (Axes.fresh false)) := by
  cases ax? <;> rfl

theorem histogram_plot_id (vals : List ℚ) (t xl yl : Option String) (ax? : Option Axes)
    (ll : Option (List String)) : (histogram_plot vals t xl yl ax? ll).id = axIdOf ax? := by
  cases ax? <;> cases ll <;> rfl

theorem histogram_plot_none (vals : List ℚ) (t xl yl : Option String)
    (ll : Option (List String)) :
    histogram_plot vals t xl yl none ll = histogram_plot vals t xl yl (some (Axes.fresh false)) ll := rfl

theorem histogram_plot_lims3 (vals : List ℚ) (t xl yl : Option String) (ax? : Option Axes)
    (ll : Option (List String)) :
    lims3 (histogram_plot vals t xl yl ax? ll) = lims3 (ax?.getD (Axes.fresh false)) := by
  cases ax? <;> cases ll <;> rfl

theorem pmft_plot_id (h : Heap) (pm : PMFT) (ax? : Option Axes) (cmap : String) :
    (pmft_plot h pm ax? cmap).1.id = axIdOf ax? := by
  cases ax? <;> rfl

theorem pmft_plot_none (h : Heap) (pm : PMFT) (cmap : String) :
    pmft_plot h pm none cmap = pmft_plot h pm (some (Axes.fresh false)) cmap := rfl

theorem pmft_plot_lims3 (h : Heap) (pm : PMFT) (ax? : Option Axes) (cmap : String) :
    lims3 (pmft_plot h pm ax? cmap).1 = lims3 (ax?.getD (Axes.fresh false)) := by
  cases ax? <;> rfl

theorem density_plot_id (dens : List (List ℚ)) (b : Box) (ax? : Option Axes) :
    (density_plot dens b ax?).id = axIdOf ax? := by
  cases ax? <;> rfl

theorem density_plot_none (dens : List (List ℚ)) (b : Box) :
    density_plot dens b none = density_plot dens b (some (Axes.fresh false)) := rfl

theorem density_plot_lims3 (dens : List (List ℚ)) (b : Box) (ax? : Option Axes) :
    lims3 (density_plot dens b ax?) = lims3 (ax?.getD (Axes.fresh false)) := by
  cases ax? <;> rfl

theorem voronoi_plot_none (p : List (List (ℚ × ℚ × ℚ))) (v : List ℚ) (b : Box)
    (cb cm? : Option String) (perm : List ℕ) :
    voronoi_plot p v b none cb cm? perm =
      voronoi_plot p v b (some (Axes.fresh false)) cb cm? perm := rfl

theorem voronoi_plot_ok_id (p : List (List (ℚ × ℚ × ℚ))) (v : List ℚ) (b : Box)
    (ax? : Option Axes) (cb cm? : Option String) (perm : List ℕ) :
    ∀ r, voronoi_plot p v b ax? cb cm? perm = .ok r → r.id = axIdOf ax? := by
  intro r h
  rcases voronoi_plot_shape p v b ax? cb cm? perm with
    ⟨err, hce, hpe⟩ | ⟨colors, nc, hco, ⟨em, hmn, hpe⟩ | ⟨mn, eM, hmn, hmx, hpe⟩ |
      ⟨mn, mx, hmn, hmx, hpe⟩⟩ <;> rw [h] at hpe
  · exact Except.noConfusion hpe
  · exact Except.noConfusion hpe
  · exact Except.noConfusion hpe
  · cases hpe
    rw [voronoi_draw_id]
    cases ax? <;> rfl

theorem voronoi_plot_ok_lims3 (p : List (List (ℚ × ℚ × ℚ))) (v : List ℚ) (b : Box)
    (ax? : Option Axes) (cb cm? : Option String) (perm : List ℕ) :
    ∀ r, voronoi_plot p v b ax? cb cm? perm = .ok r →
      lims3 r = lims3 (ax?.getD (Axes.fresh false)) := by
  intro r h
  rcases voronoi_plot_shape p v b ax? cb cm? perm with
    ⟨err, hce, hpe⟩ | ⟨colors, nc, hco, ⟨em, hmn, hpe⟩ | ⟨mn, eM, hmn, hmx, hpe⟩ |
      ⟨mn, mx, hmn, hmx, hpe⟩⟩ <;> rw [h] at hpe
  · exact Except.noConfusion hpe
  · exact Except.noConfusion hpe
  · exact Except.noConfusion hpe
  · cases hpe
    exact voronoi_draw_lims3 _ _ _ _ _ _ _ _ _

theorem voronoi_plot_error_ax (p : List (List (ℚ × ℚ × ℚ))) (v : List ℚ) (b : Box)
    (ax? : Option Axes) (cb cm? : Option String) (perm : List ℕ) :
    ∀ e, voronoi_plot p v b ax? cb cm? perm = .error e →
      e.2 = ax?.getD (Axes.fresh false) := by
  intro e h
  rcases voronoi_plot_shape p v b ax? cb cm? perm with
    ⟨err, hce, hpe⟩ | ⟨colors, nc, hco, ⟨em, hmn, hpe⟩ | ⟨mn, eM, hmn, hmx, hpe⟩ |
      ⟨mn, mx, hmn, hmx, hpe⟩⟩ <;> rw [h] at hpe
  · cases hpe; rfl
  · cases hpe; rfl
  · cases hpe; rfl
  · exact Except.noConfusion hpe

theorem voronoi_plot_ok_of (p : List (List (ℚ × ℚ × ℚ))) (v : List ℚ) (b : Box)
    (ax? : Option Axes) (cm? : Option String) (perm : List ℕ) (cb : Option String)
    (hc : (cb = some "sides" ∧ p ≠ []) ∨ (cb = some "area" ∧ v ≠ []) ∨
      (cb = none ∧ perm ≠ [])) :
    ∃ r, voronoi_plot p v b ax? cb cm? perm = .ok r ∧ r.id = axIdOf ax? := by
  rcases hc with ⟨rfl, hne⟩ | ⟨rfl, hne⟩ | ⟨rfl, hne⟩
  · cases p with
    | nil => exact absurd rfl hne
    | cons q qs => cases ax? <;> exact ⟨_, rfl, rfl⟩
  · cases v with
    | nil => exact absurd rfl hne
    | cons q qs => cases ax? <;> exact ⟨_, rfl, rfl⟩
  · cases perm with
    | nil => exact absurd rfl hne
    | cons q qs => cases ax? <;> exact ⟨_, rfl, rfl⟩

theorem diffraction_plot_none (diff : List (List ℚ)) (kv : List ℚ) (nP : ℕ)
    (cm : String) (vmin? vmax? : Option ℚ) :
    diffraction_plot diff kv nP none cm vmin? vmax? =
      diffraction_plot diff kv nP (some (Axes.fresh false)) cm vmin? vmax? := rfl

theorem diffraction_plot_ok_id (diff : List (List ℚ)) (kv : List ℚ) (nP : ℕ)
    (ax? : Option Axes) (cm : String) (vmin? vmax? : Option ℚ) :
    ∀ r, diffraction_plot diff kv nP ax? cm vmin? vmax? = .ok r → r.id = axIdOf ax? := by
  intro r h
  cases kv <;> cases ax? <;> first | exact Except.noConfusion h | (cases h; rfl)

theorem diffraction_plot_ok_lims3 (diff : List (List ℚ)) (kv : List ℚ) (nP : ℕ)
    (ax? : Option Axes) (cm : String) (vmin? vmax? : Option ℚ) :
    ∀ r, diffraction_plot diff kv nP ax? cm vmin? vmax? = .ok r →
      lims3 r = lims3 (ax?.getD (Axes.fresh false)) := by
  intro r h
  cases kv <;> cases ax? <;> first | exact Except.noConfusion h | (cases h; rfl)

theorem diffraction_plot_error_ax (diff : List (List ℚ)) (kv : List ℚ) (nP : ℕ)
    (ax? : Option Axes) (cm : String) (vmin? vmax? : Option ℚ) :
    ∀ e, diffraction_plot diff kv nP ax? cm vmin? vmax? = .error e →
      e.2 = ax?.getD (Axes.fresh false) := by
  intro e h
  cases kv <;> cases ax? <;> first | exact Except.noConfusion h | (cases h; rfl)

theorem diffraction_plot_ok_of (diff : List (List ℚ)) (kv : List ℚ) (nP : ℕ)
    (ax? : Option Axes) (cm : String) (vmin? vmax? : Option ℚ) (hk : kv ≠ []) :
    ∃ r, diffraction_plot diff kv nP ax? cm vmin? vmax? = .ok r ∧ r.id = axIdOf ax? := by
  cases kv with
  | nil => exact absurd rfl hk
  | cons k ks => cases ax? <;> exact ⟨_, rfl, rfl⟩

/-! ## Claim theorems -/

/-- C1: `voronoi_plot` raises `RuntimeError` exactly for a `color_by` value
other than `'sides'`, `'area'` and `None`, with a message containing the
invalid value; for the three recognized values no `RuntimeError` is ever
produced (on empty inputs the numpy reductions raise `ValueError`, not
`RuntimeError`). -/
theorem voronoi_plot_color_by_validation (p : List (List (ℚ × ℚ × ℚ))) (v : List ℚ)
    (b : Box) (ax? : Option Axes) (cm? : Option String) (perm : List ℕ) :
    (∀ s : String, s ≠ "sides" → s ≠ "area" →
      ∃ pre post ax1, voronoi_plot p v b ax? (some s) cm? perm =
        .error (.runtimeError (pre ++ s ++ post), ax1)) ∧
    (∀ cb : Option String, (cb = some "sides" ∨ cb = some "area" ∨ cb = none) →
      ∀ msg ax1, voronoi_plot p v b ax? cb cm? perm ≠ .error (.runtimeError msg, ax1)) := by
  constructor
  · intro s h1 h2
    refine ⟨"Invalid color_by option ", ".", ax?.getD (Axes.fresh false), ?_⟩
    simp only [voronoi_plot]
    rw [voronoi_colors_invalid p v perm s h1 h2]
    cases ax? <;> rfl
  · intro cb hcb msg ax1 h
    rcases voronoi_plot_shape p v b ax? cb cm? perm with
      ⟨err, hce, hpe⟩ | ⟨colors, nc, hco, hrest⟩
    · rw [h] at hpe
      obtain ⟨m, rfl⟩ := voronoi_colors_valid_no_rte p v perm cb hcb err hce
      simp at hpe
    · rcases hrest with ⟨em, hmn, hpe⟩ | ⟨mn, eM, hmn, hmx, hpe⟩ | ⟨mn, mx, hmn, hmx, hpe⟩ <;>
        rw [h] at hpe <;> simp at hpe

/-- C1 witness: a concrete invalid option raises with the value in the
message; a concrete valid option never raises a `RuntimeError`. -/
theorem voronoi_plot_color_by_validation_witness :
    (∃ pre post ax1, voronoi_plot polysW [] boxW (some axW) (some "bogus") none [] =
      .error (.runtimeError (pre ++ "bogus" ++ post), ax1)) ∧
    (∀ msg ax1, voronoi_plot polysW [] boxW (some axW) (some "sides") none [] ≠
      .error (.runtimeError msg, ax1)) := by
  have h := voronoi_plot_color_by_validation polysW [] boxW (some axW) none []
  exact ⟨h.1 "bogus" (by decide) (by decide), h.2 (some "sides") (Or.inl rfl)⟩

/-- C10: `voronoi_plot` is atomic on the invalid-`color_by` error: the
exception carries the caller's axes completely unchanged, because the
validation happens before any drawing call on the axes. -/
theorem voronoi_plot_error_leaves_axes_untouched (p : List (List (ℚ × ℚ × ℚ)))
    (v : List ℚ) (b : Box) (a : Axes) (cm? : Option String) (perm : List ℕ)
    (s : String) (h1 : s ≠ "sides") (h2 : s ≠ "area") :
    voronoi_plot p v b (some a) (some s) cm? perm =
      .error (.runtimeError ("Invalid color_by option " ++ s ++ "."), a) := by
  simp only [voronoi_plot]
  rw [voronoi_colors_invalid p v perm s h1 h2]

/-- C10 witness: at a concrete invalid option the carried axes equal the
caller's axes exactly. -/
theorem voronoi_plot_error_leaves_axes_untouched_witness :
    voronoi_plot polysW [] boxW (some axW) (some "bogus") none [] =
      .error (.runtimeError ("Invalid color_by option " ++ "bogus" ++ "."), axW) :=
  voronoi_plot_error_leaves_axes_untouched polysW [] boxW axW none [] "bogus"
    (by decide) (by decide)

unseal Rat.add Rat.mul Rat.sub Rat.inv in
/-- C4 counterexample: `voronoi_plot` with `color_by=None` is not
deterministic over identical caller inputs.  The cell colors come from an
unseeded `np.random.RandomState()` permutation; two runs that draw two
different (valid) permutations of `range(len(patches))` add different patch
collections to the axes. -/
theorem voronoi_plot_random_colors_differ :
    List.Perm [0, 1] (List.range 2) ∧ List.Perm [1, 0] (List.range 2) ∧
    voronoi_plot polysW [] boxW (some axW) none none [0, 1] ≠
      voronoi_plot polysW [] boxW (some axW) none none [1, 0] := by
  refine ⟨by decide, by decide, ?_⟩
  decide

/-- C4 amended: every helper except `voronoi_plot` with `color_by=None` is
deterministic; the output of `voronoi_plot` does not depend on the ambient
random permutation whenever `color_by` is not `None`. -/
theorem voronoi_plot_rng_independent_unless_none (p : List (List (ℚ × ℚ × ℚ)))
    (v : List ℚ) (b : Box) (ax? : Option Axes) (cm? : Option String)
    (cb : Option String) (hcb : cb ≠ none) (perm1 perm2 : List ℕ) :
    voronoi_plot p v b ax? cb cm? perm1 = voronoi_plot p v b ax? cb cm? perm2 := by
  have hc : voronoi_colors p v perm1 cb = voronoi_colors p v perm2 cb := by
    obtain ⟨s, rfl⟩ := Option.ne_none_iff_exists'.mp hcb
    have hn : (some s : Option String) ≠ none := by simp
    unfold voronoi_colors
    rw [if_neg hn, if_neg hn]
  simp only [voronoi_plot]
  rw [hc]

/-- C4 amended witness: two different permutations give the same output once
`color_by='sides'`. -/
theorem voronoi_plot_rng_independent_unless_none_witness :
    voronoi_plot polysW [] boxW (some axW) (some "sides") none [0, 1] =
      voronoi_plot polysW [] boxW (some axW) (some "sides") none [1, 0] :=
  voronoi_plot_rng_independent_unless_none polysW [] boxW (some axW) none (some "sides")
    (by decide) [0, 1] [1, 0]

/-- C2: every plotting helper draws on the caller-supplied axes and returns
that very object (the axes `id` is preserved); with `ax=None` the call is
identical to drawing on the axes of a newly created figure, which is what is
returned. -/
theorem helpers_preserve_caller_axes (a : Axes) (box : Box)
    (t xl yl : Option String) (im : Option (ℤ × ℤ × ℤ)) (col : Option String)
    (sys : NeighborQuery) (x : List String) (hgt : List ℚ) (keys : List ℤ)
    (freqs : List ℕ) (n : ℕ) (xs ys vals : List ℚ) (ll : Option (List String))
    (hp : Heap) (pm : PMFT) (cmapS : String) (dens : List (List ℚ))
    (polys : List (List (ℚ × ℚ × ℚ))) (vols : List ℚ) (cb cm? : Option String)
    (perm : List ℕ) (diff : List (List ℚ)) (kv : List ℚ) (nP : ℕ)
    (vmin? vmax? : Option ℚ) :
    ((box_plot box t (some a) im col).id = a.id ∧
      box_plot box t none im col = box_plot box t (some (Axes.fresh (!box.is2D))) im col) ∧
    ((∀ r, system_plot sys t (some a) = .ok r → r.1.id = a.id) ∧
      system_plot sys t none = system_plot sys t (some (Axes.fresh (!sys.box.is2D)))) ∧
    ((bar_plot x hgt t xl yl (some a)).id = a.id ∧
      bar_plot x hgt t xl yl none = bar_plot x hgt t xl yl (some (Axes.fresh false))) ∧
    ((clusters_plot keys freqs n (some a)).id = a.id ∧
      clusters_plot keys freqs n none = clusters_plot keys freqs n (some (Axes.fresh false))) ∧
    ((line_plot xs ys t xl yl (some a)).id = a.id ∧
      line_plot xs ys t xl yl none = line_plot xs ys t xl yl (some (Axes.fresh false))) ∧
    ((histogram_plot vals t xl yl (some a) ll).id = a.id ∧
      histogram_plot vals t xl yl none ll =
        histogram_plot vals t xl yl (some (Axes.fresh false)) ll) ∧
    ((pmft_plot hp pm (some a) cmapS).1.id = a.id ∧
      pmft_plot hp pm none cmapS = pmft_plot hp pm (some (Axes.fresh false)) cmapS) ∧
    ((density_plot dens box (some a)).id = a.id ∧
      density_plot dens box none = density_plot dens box (some (Axes.fresh false))) ∧
    ((∀ r, voronoi_plot polys vols box (some a) cb cm? perm = .ok r → r.id = a.id) ∧
      voronoi_plot polys vols box none cb cm? perm =
        voronoi_plot polys vols box (some (Axes.fresh false)) cb cm? perm) ∧
    ((∀ r, diffraction_plot diff kv nP (some a) cmapS vmin? vmax? = .ok r → r.id = a.id) ∧
      diffraction_plot diff kv nP none cmapS vmin? vmax? =
        diffraction_plot diff kv nP (some (Axes.fresh false)) cmapS vmin? vmax?) :=
  ⟨⟨box_plot_id box t (some a) im col, box_plot_none box t im col⟩,
    ⟨system_plot_ok_id sys t (some a), system_plot_none sys t⟩,
    ⟨bar_plot_id x hgt t xl yl (some a), bar_plot_none x hgt t xl yl⟩,
    ⟨clusters_plot_id keys freqs n (some a), clusters_plot_none keys freqs n⟩,
    ⟨line_plot_id xs ys t xl yl (some a), line_plot_none xs ys t xl yl⟩,
    ⟨histogram_plot_id vals t xl yl (some a) ll, histogram_plot_none vals t xl yl ll⟩,
    ⟨pmft_plot_id hp pm (some a) cmapS, pmft_plot_none hp pm cmapS⟩,
    ⟨density_plot_id dens box (some a), density_plot_none dens box⟩,
    ⟨voronoi_plot_ok_id polys vols box (some a) cb cm? perm,
      voronoi_plot_none polys vols box cb cm? perm⟩,
    ⟨diffraction_plot_ok_id diff kv nP (some a) cmapS vmin? vmax?,
      diffraction_plot_none diff kv nP cmapS vmin? vmax?⟩⟩

unseal Rat.add Rat.mul Rat.sub Rat.inv in
/-- C2 witness: at concrete inputs the helpers hand the caller's axes back,
also on the successful voronoi path. -/
theorem helpers_preserve_caller_axes_witness :
    (box_plot boxW none (some axW) none none).id = axW.id ∧
    ∃ r, voronoi_plot polysW [] boxW (some axW) (some "sides") none [] = .ok r ∧
      r.id = axW.id := by
  have h := helpers_preserve_caller_axes axW boxW none none none none none
    ⟨boxW, []⟩ [] [] [] [] 0 [] [] [] none [] ⟨0, ((0, 1), (0, 1))⟩ "viridis" []
    polysW [] (some "sides") none [] [] [] 0 none none
  refine ⟨h.1.1, ?_⟩
  cases hvor : voronoi_plot polysW [] boxW (some axW) (some "sides") none [] with
  | error e =>
    have hok : (voronoi_plot polysW [] boxW (some axW) (some "sides") none []).isOk = true := by
      decide
    rw [hvor] at hok
    exact absurd hok (by simp [Except.isOk, Except.toBool])
  | ok r => exact ⟨r, rfl, h.2.2.2.2.2.2.2.2.1.1 r hvor⟩

/-- C3: every public helper returns the non-null axes object it drew on:
the total helpers return the resolved axes itself (same identity), and
`system_plot`, `voronoi_plot` and `diffraction_plot` succeed and return it
whenever their numpy reductions have nonempty input and, for `voronoi_plot`,
the coloring mode is recognized. -/
theorem helpers_return_axes (ax? : Option Axes) (box : Box) (t xl yl : Option String)
    (im : Option (ℤ × ℤ × ℤ)) (col : Option String) (sys : NeighborQuery)
    (x : List String) (hgt : List ℚ) (keys : List ℤ) (freqs : List ℕ) (n : ℕ)
    (xs ys vals : List ℚ) (ll : Option (List String)) (hp : Heap) (pm : PMFT)
    (cmapS : String) (dens : List (List ℚ)) (polys : List (List (ℚ × ℚ × ℚ)))
    (vols : List ℚ) (cm? : Option String) (perm : List ℕ) (diff : List (List ℚ))
    (kv : List ℚ) (nP : ℕ) (vmin? vmax? : Option ℚ) :
    (box_plot box t ax? im col).id = axIdOf ax? ∧
    (bar_plot x hgt t xl yl ax?).id = axIdOf ax? ∧
    (clusters_plot keys freqs n ax?).id = axIdOf ax? ∧
    (line_plot xs ys t xl yl ax?).id = axIdOf ax? ∧
    (histogram_plot vals t xl yl ax? ll).id = axIdOf ax? ∧
    (pmft_plot hp pm ax? cmapS).1.id = axIdOf ax? ∧
    (density_plot dens box ax?).id = axIdOf ax? ∧
    (∀ r, system_plot sys t ax? = .ok r → r.1.id = axIdOf ax?) ∧
    (∀ cb r, voronoi_plot polys vols box ax? cb cm? perm = .ok r → r.id = axIdOf ax?) ∧
    (∀ r, diffraction_plot diff kv nP ax? cmapS vmin? vmax? = .ok r → r.id = axIdOf ax?) ∧
    ((sys.box.is2D = true ∨ sys.points ≠ []) →
      ∃ r, system_plot sys t ax? = .ok r ∧ r.1.id = axIdOf ax?) ∧
    (∀ cb : Option String,
      ((cb = some "sides" ∧ polys ≠ []) ∨ (cb = some "area" ∧ vols ≠ []) ∨
        (cb = none ∧ perm ≠ [])) →
      ∃ r, voronoi_plot polys vols box ax? cb cm? perm = .ok r ∧ r.id = axIdOf ax?) ∧
    (kv ≠ [] →
      ∃ r, diffraction_plot diff kv nP ax? cmapS vmin? vmax? = .ok r ∧ r.id = axIdOf ax?) :=
  ⟨box_plot_id box t ax? im col,
    bar_plot_id x hgt t xl yl ax?,
    clusters_plot_id keys freqs n ax?,
    line_plot_id xs ys t xl yl ax?,
    histogram_plot_id vals t xl yl ax? ll,
    pmft_plot_id hp pm ax? cmapS,
    density_plot_id dens box ax?,
    system_plot_ok_id sys t ax?,
    fun cb => voronoi_plot_ok_id polys vols box ax? cb cm? perm,
    diffraction_plot_ok_id diff kv nP ax? cmapS vmin? vmax?,
    fun hs => system_plot_ok_of sys t ax? hs,
    fun cb hc => voronoi_plot_ok_of polys vols box ax? cm? perm cb hc,
    fun hk => diffraction_plot_ok_of diff kv nP ax? cmapS vmin? vmax? hk⟩

/-- C3 witness: concrete non-raising calls return the caller's axes. -/
theorem helpers_return_axes_witness :
    (box_plot boxW none (some axW) none none).id = axIdOf (some axW) ∧
    (∃ r, system_plot ⟨boxW, []⟩ none (some axW) = .ok r ∧ r.1.id = axIdOf (some axW)) ∧
    ∃ r, diffraction_plot [] [1] 0 (some axW) "afmhot" none none = .ok r ∧
      r.id = axIdOf (some axW) := by
  have h := helpers_return_axes (some axW) boxW none none none none none
    ⟨boxW, []⟩ [] [] [] [] 0 [] [] [] none [] ⟨0, ((0, 1), (0, 1))⟩ "afmhot" []
    polysW [] none [] [] [1] 0 none none
  exact ⟨h.1, h.2.2.2.2.2.2.2.2.2.2.1 (Or.inl rfl),
    h.2.2.2.2.2.2.2.2.2.2.2.2 (by decide)⟩

/-- C7: `_set_3d_axes_equal` with explicit limits sets all three 3D axis
ranges to one common width — the maximum of the three input widths — each
centered on the midpoint of the corresponding input interval.  Its two
invocations are the 3D branches of `box_plot` and `system_plot`, whose
outputs are applications of it; every other helper (and the 2D branch of
`box_plot`) leaves the 3D limits of the axes unchanged. -/
theorem set_3d_axes_equal_spec (ax : Axes) (L : Limits3) (box : Box)
    (t xl yl : Option String) (ax? : Option Axes) (im : Option (ℤ × ℤ × ℤ))
    (col : Option String) (sys : NeighborQuery) (x : List String) (hgt : List ℚ)
    (keys : List ℤ) (freqs : List ℕ) (n : ℕ) (xs ys vals : List ℚ)
    (ll : Option (List String)) (hp : Heap) (pm : PMFT) (cmapS : String)
    (dens : List (List ℚ)) (polys : List (List (ℚ × ℚ × ℚ))) (vols : List ℚ)
    (cb cm? : Option String) (perm : List ℕ) (diff : List (List ℚ)) (kv : List ℚ)
    (nP : ℕ) (vmin? vmax? : Option ℚ) :
    (∃ lo1 hi1 lo2 hi2 lo3 hi3,
      (set_3d_axes_equal ax (some L)).xlim3d = some (lo1, hi1) ∧
      (set_3d_axes_equal ax (some L)).ylim3d = some (lo2, hi2) ∧
      (set_3d_axes_equal ax (some L)).zlim3d = some (lo3, hi3) ∧
      hi1 - lo1 = max (L.1.2 - L.1.1) (max (L.2.1.2 - L.2.1.1) (L.2.2.2 - L.2.2.1)) ∧
      hi2 - lo2 = hi1 - lo1 ∧ hi3 - lo3 = hi1 - lo1 ∧
      lo1 + hi1 = L.1.1 + L.1.2 ∧ lo2 + hi2 = L.2.1.1 + L.2.1.2 ∧
      lo3 + hi3 = L.2.2.1 + L.2.2.2) ∧
    (box.is2D = false →
      ∃ a1 L1, box_plot box t ax? im col = set_3d_axes_equal a1 (some L1)) ∧
    (sys.box.is2D = false → ∀ r, system_plot sys t ax? = .ok r →
      ∃ a1 L1, r.1 = set_3d_axes_equal a1 (some L1)) ∧
    (box.is2D = true →
      lims3 (box_plot box t ax? im col) = lims3 (ax?.getD (Axes.fresh (!box.is2D)))) ∧
    lims3 (bar_plot x hgt t xl yl ax?) = lims3 (ax?.getD (Axes.fresh false)) ∧
    lims3 (clusters_plot keys freqs n ax?) = lims3 (ax?.getD (Axes.fresh false)) ∧
    lims3 (line_plot xs ys t xl yl ax?) = lims3 (ax?.getD (Axes.fresh false)) ∧
    lims3 (histogram_plot vals t xl yl ax? ll) = lims3 (ax?.getD (Axes.fresh false)) ∧
    lims3 (pmft_plot hp pm ax? cmapS).1 = lims3 (ax?.getD (Axes.fresh false)) ∧
    lims3 (density_plot dens box ax?) = lims3 (ax?.getD (Axes.fresh false)) ∧
    (∀ r, voronoi_plot polys vols box ax? cb cm? perm = .ok r →
      lims3 r = lims3 (ax?.getD (Axes.fresh false))) ∧
    (∀ e, voronoi_plot polys vols box ax? cb cm? perm = .error e →
      lims3 e.2 = lims3 (ax?.getD (Axes.fresh false))) ∧
    (∀ r, diffraction_plot diff kv nP ax? cmapS vmin? vmax? = .ok r →
      lims3 r = lims3 (ax?.getD (Axes.fresh false))) ∧
    (∀ e, diffraction_plot diff kv nP ax? cmapS vmin? vmax? = .error e →
      lims3 e.2 = lims3 (ax?.getD (Axes.fresh false))) := by
  refine ⟨⟨_, _, _, _, _, _, rfl, rfl, rfl, ?_, ?_, ?_, ?_, ?_, ?_⟩,
    box_plot_3d_equalized box t ax? im col,
    system_plot_3d_ok_equalized sys t ax?,
    box_plot_lims3_2d box t ax? im col,
    bar_plot_lims3 x hgt t xl yl ax?,
    clusters_plot_lims3 keys freqs n ax?,
    line_plot_lims3 xs ys t xl yl ax?,
    histogram_plot_lims3 vals t xl yl ax? ll,
    pmft_plot_lims3 hp pm ax? cmapS,
    density_plot_lims3 dens box ax?,
    voronoi_plot_ok_lims3 polys vols box ax? cb cm? perm,
    ?_,
    diffraction_plot_ok_lims3 diff kv nP ax? cmapS vmin? vmax?,
    ?_⟩
  · ring
  · ring
  · ring
  · ring
  · ring
  · ring
  · intro e h
    rw [voronoi_plot_error_ax polys vols box ax? cb cm? perm e h]
  · intro e h
    rw [diffraction_plot_error_ax diff kv nP ax? cmapS vmin? vmax? e h]

unseal Rat.add Rat.mul Rat.sub Rat.inv in
/-- C7 witness: a concrete 3D box; both callers factor through the
equalization helper. -/
theorem set_3d_axes_equal_spec_witness :
    (∃ a1 L1, box_plot boxW3 none (some axW) none none = set_3d_axes_equal a1 (some L1)) ∧
    ∃ r, system_plot ⟨boxW3, [(0, 0, 0)]⟩ none (some axW) = .ok r ∧
      ∃ a1 L1, r.1 = set_3d_axes_equal a1 (some L1) := by
  have h := set_3d_axes_equal_spec axW ((0, 1), (0, 1), (0, 1)) boxW3 none none none
    (some axW) none none ⟨boxW3, [(0, 0, 0)]⟩ [] [] [] [] 0 [] [] [] none []
    ⟨0, ((0, 1), (0, 1))⟩ "viridis" [] polysW [] none none [] [] [] 0 none none
  refine ⟨h.2.1 rfl, ?_⟩
  cases hs : system_plot (⟨boxW3, [(0, 0, 0)]⟩ : NeighborQuery) none (some axW) with
  | error e =>
    have hok : (system_plot (⟨boxW3, [(0, 0, 0)]⟩ : NeighborQuery) none (some axW)).isOk
        = true := by decide
    rw [hs] at hok
    exact absurd hok (by simp [Except.isOk, Except.toBool])
  | ok r => exact ⟨r, rfl, h.2.2.1 rfl r hs⟩

/-- C8: `diffraction_plot` draws the diffraction data as one image element
with a logarithmic color normalization between `vmin` and `vmax`, defaulting
to `4e-6 * N_points` and `0.7 * N_points` when the caller passes `None`, and
the displayed data is the input clipped to `[vmin, vmax]` (hence every
displayed entry lies in that interval when it is nonempty). -/
theorem diffraction_plot_lognorm_clip (diff : List (List ℚ)) (kv : List ℚ) (nP : ℕ)
    (ax? : Option Axes) (cm : String) (vmin? vmax? : Option ℚ) (hk : kv ≠ []) :
    ∃ kmn kmx a,
      listMin kv = .ok kmn ∧ listMax kv = .ok kmx ∧
      diffraction_plot diff kv nP ax? cm vmin? vmax? = .ok a ∧
      a.elements = (ax?.getD (Axes.fresh false)).elements ++
        [Elem.image (np_clip_grid diff (vmin?.getD ((4 / 1000000 : ℚ) * (nP : ℚ)))
            (vmax?.getD ((7 / 10 : ℚ) * (nP : ℚ))))
          [kmn, kmx, kmn, kmx] (some "nearest") (some cm) none none
          (some (vmin?.getD ((4 / 1000000 : ℚ) * (nP : ℚ)),
            vmax?.getD ((7 / 10 : ℚ) * (nP : ℚ))))] ∧
      (vmin?.getD ((4 / 1000000 : ℚ) * (nP : ℚ)) ≤ vmax?.getD ((7 / 10 : ℚ) * (nP : ℚ)) →
        ∀ row ∈ np_clip_grid diff (vmin?.getD ((4 / 1000000 : ℚ) * (nP : ℚ)))
            (vmax?.getD ((7 / 10 : ℚ) * (nP : ℚ))),
          ∀ q ∈ row, vmin?.getD ((4 / 1000000 : ℚ) * (nP : ℚ)) ≤ q ∧
            q ≤ vmax?.getD ((7 / 10 : ℚ) * (nP : ℚ))) := by
  cases kv with
  | nil => exact absurd rfl hk
  | cons k ks =>
    refine ⟨ks.foldl min k, ks.foldl max k, _, rfl, rfl, rfl, ?_, ?_⟩
    · cases ax? <;> rfl
    · intro hle row hrow q hq
      simp only [np_clip_grid, List.mem_map] at hrow
      obtain ⟨row0, -, rfl⟩ := hrow
      simp only [List.mem_map] at hq
      obtain ⟨x0, -, rfl⟩ := hq
      refine ⟨le_min (le_max_right x0 _) hle, min_le_right _ _⟩

unseal Rat.add Rat.mul Rat.sub Rat.inv in
/-- C8 witness: concrete diffraction data and defaults. -/
theorem diffraction_plot_lognorm_clip_witness :
    ([1] : List ℚ) ≠ [] ∧
    ((4 / 1000000 : ℚ) * ((10 : ℕ) : ℚ)) ≤ ((7 / 10 : ℚ) * ((10 : ℕ) : ℚ)) ∧
    ∃ a, diffraction_plot [[0], [100]] [1] 10 (some axW) "afmhot" none none = .ok a := by
  have h := diffraction_plot_lognorm_clip [[0], [100]] [1] 10 (some axW) "afmhot"
    none none (by decide)
  obtain ⟨kmn, kmx, a, -, -, hok, -, -⟩ := h
  exact ⟨by decide, by decide, a, hok⟩

/-- C5: `_ax_to_bytes` returns the PNG rendering of the axes' figure,
produced entirely in memory: the bytes handed back are exactly the
renderer's output on that figure (with the Agg canvas set), and no effect in
the trace writes to a file or sends on the network. -/
theorem ax_to_bytes_png_in_memory (png : Fig → List ℕ) (figure : Fig) :
    (ax_to_bytes png figure).1 = png { figure with canvasAgg := true } ∧
    ((ax_to_bytes png figure).2.2.all (fun e => !effLeavesMemory e)) = true := by
  constructor
  · simp [ax_to_bytes, bytesWrittenTo]
  · simp [ax_to_bytes, effLeavesMemory]

/-- C6: `pmft_plot` never modifies the caller's `pmft.pmft` array: the heap
cell the PMFT refers to is unchanged by the call, because the `NaN`
substitution happens on the freshly allocated `np.copy`. -/
theorem pmft_plot_preserves_pmft (h : Heap) (pmft : PMFT) (ax? : Option Axes)
    (cmap : String) (href : pmft.pmftRef < h.length) :
    ((pmft_plot h pmft ax? cmap).2)[pmft.pmftRef]? = h[pmft.pmftRef]? := by
  have hne : h.length ≠ pmft.pmftRef := by omega
  calc ((pmft_plot h pmft ax? cmap).2)[pmft.pmftRef]?
      = ((h ++ [h.getD pmft.pmftRef []]).set h.length
          (maskInfToNan ((h ++ [h.getD pmft.pmftRef []]).getD h.length [])))[pmft.pmftRef]? := rfl
    _ = (h ++ [h.getD pmft.pmftRef []])[pmft.pmftRef]? := List.getElem?_set_ne hne
    _ = h[pmft.pmftRef]? := List.getElem?_append_left href

/-- C6 witness: a concrete heap with an `inf` entry is untouched at the
input reference. -/
theorem pmft_plot_preserves_pmft_witness :
    (0 : ℕ) < ([[[FVal.inf, FVal.fin 1]]] : Heap).length ∧
    ((pmft_plot [[[FVal.inf, FVal.fin 1]]] ⟨0, ((-2, 2), (-2, 2))⟩ (some axW) "viridis").2)[(0 : ℕ)]?
      = ([[[FVal.inf, FVal.fin 1]]] : Heap)[(0 : ℕ)]? :=
  ⟨by decide,
    pmft_plot_preserves_pmft [[[FVal.inf, FVal.fin 1]]] ⟨0, ((-2, 2), (-2, 2))⟩
      (some axW) "viridis" (by decide)⟩

/-- C9: `clusters_plot` draws exactly the `min(num_clusters_to_plot, number
of clusters)` most frequent clusters as one bar element, with bar heights in
non-increasing frequency order and each bar labeled by the string form of
its cluster key: the drawn pairs are the first `num_clusters_to_plot`
entries of a frequency-sorted permutation of all `(freq, key)` pairs. -/
theorem clusters_plot_largest (keys : List ℤ) (freqs : List ℕ) (n : ℕ)
    (ax? : Option Axes) (hlen : keys.length = freqs.length) :
    ∃ sortedPairs : List (ℕ × ℤ),
      sortedPairs.Perm (freqs.zip keys) ∧
      List.Sorted freqGE sortedPairs ∧
      (clusters_plot keys freqs n ax?).elements =
        (ax?.getD (Axes.fresh false)).elements ++
          [Elem.bar ((sortedPairs.take n).map (fun p => toString p.2))
            ((sortedPairs.take n).map (fun p => (p.1 : ℚ)))] ∧
      ((sortedPairs.take n).map (fun p => (p.1 : ℚ))).length = min n freqs.length := by
  refine ⟨List.insertionSort freqGE (freqs.zip keys),
    List.perm_insertionSort freqGE _, List.sorted_insertionSort freqGE _, ?_, ?_⟩
  · cases ax? <;> rfl
  · simp [List.length_take, List.length_zip, List.length_insertionSort, hlen]

/-- C9 witness: two clusters, plot only the most frequent one. -/
theorem clusters_plot_largest_witness :
    ([5, 7] : List ℤ).length = ([2, 9] : List ℕ).length ∧
    ∃ sortedPairs : List (ℕ × ℤ),
      sortedPairs.Perm (([2, 9] : List ℕ).zip ([5, 7] : List ℤ)) ∧
      List.Sorted freqGE sortedPairs ∧
      (clusters_plot [5, 7] [2, 9] 1 none).elements =
        ((none : Option Axes).getD (Axes.fresh false)).elements ++
          [Elem.bar ((sortedPairs.take 1).map (fun p => toString p.2))
            ((sortedPairs.take 1).map (fun p => (p.1 : ℚ)))] ∧
      ((sortedPairs.take 1).map (fun p => (p.1 : ℚ))).length = min 1 ([2, 9] : List ℕ).length :=
  ⟨by decide, clusters_plot_largest [5, 7] [2, 9] 1 none (by decide)⟩

end FreudPlot
